import Mathlib

/-
Verification development for the Epic Games free-games auto-grabber
(src/main.py).  The program is a single-threaded sequence of Selenium UI
interactions; we embed it shallowly as a trace-producing computation.

Modelling conventions:
  * Every `WebDriverWait(...).until(EC....)` is a `wait target outcome`
    where the environment supplies `outcome : Option _` — `some` means the
    element became visible/clickable in time, `none` means the wait timed
    out and `TimeoutException` is raised.  The attempt itself is recorded
    as an `Event.locate target` so that "tries to locate X" is observable.
  * Every `find_element_by_*` is a `find target outcome`; `none` raises
    `NoSuchElementException`.
  * Python `try/except (E1, E2, ...)` becomes `tryCatchOn p body handler`
    where `p : Exn → Bool` recognises exactly the caught exception classes.
  * `exit(0)` becomes the terminal status `Status.exited 0`; it is not an
    exception and passes through every handler.
  * Clicks, keystrokes, log calls, navigations and sleeps are trace events.
    Log calls keep the printf-style format string and the argument list of
    the source, so call sites can be identified by their literal text.
-/

inductive LogLevel where
  | debug
  | info
  | warning
  | critical
  deriving DecidableEq, Repr

inductive Event where
  | log (lvl : LogLevel) (msg : String) (args : List String)
  | locate (target : String)
  | click (target : String)
  | clickNth (target : String) (idx : Nat)
  | sendKeys (target : String) (text : String)
  | addCookie (name value domain : String)
  | refresh
  | navigate (url : String)
  | historyBack
  | closeBrowser
  | sleep (secs : Int)
  deriving DecidableEq, Repr

/-- Exception classes that the program can raise or catch.  `lookupErr`
stands for Python `LookupError` (in particular `IndexError`), `typeError`
for Python `TypeError`. -/
inductive Exn where
  | timeout
  | noSuchElement
  | webDriver
  | lookupErr
  | typeError
  deriving DecidableEq, Repr

def Exn.name : Exn → String
  | Exn.timeout => "TimeoutException"
  | Exn.noSuchElement => "NoSuchElementException"
  | Exn.webDriver => "WebDriverException"
  | Exn.lookupErr => "LookupError"
  | Exn.typeError => "TypeError"

/-- Result status of a computation: normal value, raised exception, or
process termination via `exit(code)`. -/
inductive Status (α : Type) where
  | ok (a : α)
  | raised (e : Exn)
  | exited (code : Nat)
  deriving DecidableEq, Repr

/-- A computation producing a trace of UI/log events and a status. -/
abbrev M (α : Type) : Type := List Event × Status α

def M.pure {α : Type} (a : α) : M α := ([], Status.ok a)

def M.bind {α β : Type} (x : M α) (f : α → M β) : M β :=
  match x.2 with
  | Status.ok a =>
      let y := f a
      (x.1 ++ y.1, y.2)
  | Status.raised e => (x.1, Status.raised e)
  | Status.exited c => (x.1, Status.exited c)

instance : Monad M where
  pure := M.pure
  bind := M.bind

def emit (e : Event) : M Unit := ([e], Status.ok ())

def logE (lvl : LogLevel) (msg : String) (args : List String) : M Unit :=
  emit (Event.log lvl msg args)

def click (target : String) : M Unit := emit (Event.click target)

def raiseE {α : Type} (e : Exn) : M α := ([], Status.raised e)

/-- Python `exit(0)`: terminate the whole process with code 0. -/
def raiseExit0 : M Unit := ([], Status.exited 0)

/-- A bounded `WebDriverWait(...).until(...)`: the environment says whether
the condition was met in time. -/
def wait {α : Type} (target : String) (o : Option α) : M α :=
  match o with
  | some a => ([Event.locate target], Status.ok a)
  | none => ([Event.locate target], Status.raised Exn.timeout)

/-- An un-waited `find_element_by_*`. -/
def find {α : Type} (target : String) (o : Option α) : M α :=
  match o with
  | some a => ([Event.locate target], Status.ok a)
  | none => ([Event.locate target], Status.raised Exn.noSuchElement)

/-- Python `try body except (classes p) : handler`. -/
def tryCatchOn {α : Type} (p : Exn → Bool) (body : M α) (handler : Exn → M α) :
    M α :=
  match body.2 with
  | Status.raised e =>
      if p e then
        let y := handler e
        (body.1 ++ y.1, y.2)
      else body
  | _ => body

def isTimeoutExn (e : Exn) : Bool := e == Exn.timeout

def isNoSuchExn (e : Exn) : Bool := e == Exn.noSuchElement

/-- The classes caught by the refund-popup handler:
`(NoSuchElementException, TimeoutException, LookupError)`. -/
def isRefundCaughtExn (e : Exn) : Bool :=
  e == Exn.noSuchElement || e == Exn.timeout || e == Exn.lookupErr

/-- The classes caught by the cycle-level handler in `execute`:
`(TimeoutException, NoSuchElementException, WebDriverException)`. -/
def isCycleCaughtExn (e : Exn) : Bool :=
  e == Exn.timeout || e == Exn.noSuchElement || e == Exn.webDriver

/-- Python list subscript bound check: `IndexError` when out of range. -/
def pyCheckIndex (i n : Nat) : M Unit :=
  if i < n then M.pure () else raiseE Exn.lookupErr

-- § Trace measurements

def countP (p : Event → Bool) (tr : List Event) : Nat := (tr.filter p).length

def countMsg (m : String) (tr : List Event) : Nat :=
  countP (fun e => match e with
    | Event.log _ msg _ => msg == m
    | _ => false) tr

def countLevel (lvl : LogLevel) (tr : List Event) : Nat :=
  countP (fun e => match e with
    | Event.log l _ _ => l == lvl
    | _ => false) tr

def clickCount (t : String) (tr : List Event) : Nat :=
  countP (fun e => match e with
    | Event.click s => s == t
    | _ => false) tr

def locateCount (t : String) (tr : List Event) : Nat :=
  countP (fun e => match e with
    | Event.locate s => s == t
    | _ => false) tr

/-- The three per-offer actions of the enumerator branch: the OWNED skip
log, the GET purchase log, and the unrecognized-label warning. -/
def isActionLog : Event → Bool
  | Event.log _ msg _ =>
      msg == "\"%s\" already owned. Price was %s and %s" ||
      msg == "obtaining \"%s\"" ||
      msg == "purchase button text not recognized: %s"
  | _ => false

def actionCount (tr : List Event) : Nat := countP isActionLog tr

/-- Clicks on purchase controls (as opposed to offer selection or
interstitial dismissal). -/
def isPurchaseControlClick : Event → Bool
  | Event.click t =>
      t == "purchase-cta-button" || t == "agree" || t == "accept-button" ||
      t == "btn-primary" || t == "btn-primary[1]" ||
      t == "editions-addons-buttons[t]"
  | _ => false

-- § Configuration (read_env_variables) and environments

def FREE_GAMES_PAGE_URL : String :=
  "https://www.epicgames.com/store/en-US/free-games/"

/-- The environment-derived configuration relevant to control flow.
`totp` models the `TOTP` variable: `none` when unset, `some code` when set,
where `code` stands for the value of `TOTP.now()` at submission time. -/
structure Config where
  email : String
  password : String
  totp : Option String

/-- One record of `cookies.json`.  `addOk` tells whether
`chrome_driver.add_cookie` succeeds; `WebDriverException`/`KeyError` from a
single cookie is swallowed by the per-cookie handler. -/
structure CookieRec where
  name : String
  value : String
  domain : String
  addOk : Bool

/-- State of the cookie file seen by `load_cookies`. -/
inductive CookieFile where
  | missing
  | malformed
  | wellFormed (cookies : List CookieRec)

/-- Environment for `purchase_steps`: the outcome of each bounded wait, in
source order.  `refundBtns` is the number of elements the
`visibility_of_all_elements_located` wait at the refund popup returns
(`none` = timeout). -/
structure PurchaseEnv where
  agree : Option Unit
  accept : Option Unit
  ctaAgain : Option Unit
  btnPrimary : Option Unit
  refundBtns : Option Nat
  confirmation : Option Unit

/-- Environment for `login`.  `passwordField` and `continueBtn` are plain
`find_element` lookups; the rest are bounded waits. -/
structure LoginEnv where
  userBtn : Option Unit
  loginWithEpic : Option Unit
  emailField : Option Unit
  passwordField : Option Unit
  signInBtn : Option Unit
  captchaFrame : Option Unit
  totpField : Option Unit
  continueBtn : Option Unit
  invalidCreds : Option Unit

/-- Per-iteration DOM state seen by the body of the offer loop in
`execute`.  `refetch` is the length of the re-fetched `games_found` list,
`purchaseBtn` carries the purchase button text, `editionTitles` the texts
of the editions/add-ons title elements, `subWaits t` the outcome of the
buttons wait in sub-loop iteration `t`. -/
structure IterPage where
  refetch : Option Nat
  mature : Option Unit
  matureContinue : Option Unit
  purchaseBtn : Option String
  nameText : Option String
  priceText : Option String
  expiresText : Option String
  purchase : PurchaseEnv
  editionTitles : Option (List String)
  subWaits : Nat → Option Unit

/-- Environment for one `execute()` cycle. -/
structure ExecEnv where
  cookieFile : CookieFile
  logoutEl : Option Unit
  loginEnv : LoginEnv
  initial : Option Nat
  cookieBanner : Option Unit
  iters : Nat → IterPage

-- § load_cookies (src/main.py lines 37-57)

def addOneCookie (c : CookieRec) : M Unit :=
  if c.addOk then emit (Event.addCookie c.name c.value c.domain)
  else M.pure ()

def load_cookies (cf : CookieFile) : M Unit := do
  logE LogLevel.debug "trying to load cookies" []
  match cf with
  | CookieFile.missing => logE LogLevel.critical "cookies file not found" []
  | CookieFile.malformed =>
      logE LogLevel.critical "cookies file not correctly formatted" []
  | CookieFile.wellFormed cookies => do
      cookies.forM addOneCookie
      logE LogLevel.debug "all cookies loaded, refreshing the page" []
      emit Event.refresh

-- § purchase_steps (src/main.py lines 80-144)

/-- Source lines 82-110: one `try` covering the license-agreement control,
the Accept button and the re-click of the purchase call-to-action; a
`TimeoutException` anywhere inside is handled by the single
`except TimeoutException` that logs at debug level. -/
def agreementPhase (pe : PurchaseEnv) : M Unit :=
  tryCatchOn isTimeoutExn
    (do
      logE LogLevel.debug "find and accept license agreement" []
      let _ ← wait "agree" pe.agree
      click "agree"
      let _ ← wait "accept-button" pe.accept
      click "accept-button"
      logE LogLevel.debug "find and clicking again the purchase button" []
      let _ ← wait "purchase-cta-button" pe.ctaAgain
      click "purchase-cta-button")
    (fun _ => logE LogLevel.debug "no license agreement found" [])

/-- Source lines 112-119: the primary purchase button wait; a timeout here
propagates. -/
def primaryPhase (pe : PurchaseEnv) : M Unit := do
  logE LogLevel.debug "find and click on the last purchase button" []
  let _ ← wait "btn-primary" pe.btnPrimary
  click "btn-primary"

/-- Source lines 121-133: the refund popup.  `[1].click()` on the list of
matched buttons raises `IndexError` (a `LookupError`) when fewer than two
are present; the handler catches
`(NoSuchElementException, TimeoutException, LookupError)`. -/
def refundPhase (pe : PurchaseEnv) : M Unit :=
  tryCatchOn isRefundCaughtExn
    (do
      logE LogLevel.debug "accept the conditions of refund popup" []
      let n ← wait "btn-primary" pe.refundBtns
      pyCheckIndex 1 n
      click "btn-primary[1]")
    (fun _ => logE LogLevel.debug "no refund conditions popup to accept" [])

/-- Source lines 135-144: the confirmation wait; a timeout here
propagates.  No click follows. -/
def confirmationPhase (pe : PurchaseEnv) : M Unit := do
  logE LogLevel.debug "Wait for confirmation that checkout is complete" []
  let _ ← wait "purchase-confirmation" pe.confirmation
  M.pure ()

def purchase_steps (pe : PurchaseEnv) : M Unit := do
  agreementPhase pe
  primaryPhase pe
  refundPhase pe
  confirmationPhase pe

-- § login (src/main.py lines 147-232)

/-- Source lines 148-188: the login-form `try`; a `TimeoutException` at the
account-menu, login-method, email-field or sign-in waits is caught by the
single handler that logs `Unable to locate login form` at critical level.
The `find_element` for the password field raises `NoSuchElementException`,
which this handler does not catch. -/
def loginFormPhase (cfg : Config) (env : LoginEnv) : M Unit :=
  tryCatchOn isTimeoutExn
    (do
      logE LogLevel.debug "find and click on login button" []
      let _ ← wait "user" env.userBtn
      click "user"
      logE LogLevel.debug "find and click on EpicGame login method" []
      let _ ← wait "login-with-epic" env.loginWithEpic
      click "login-with-epic"
      logE LogLevel.debug "wait for email field on login page" []
      let _ ← wait "email" env.emailField
      emit (Event.sendKeys "email" cfg.email)
      let _ ← find "password" env.passwordField
      emit (Event.sendKeys "password" cfg.password)
      let _ ← wait "sign-in" env.signInBtn
      click "sign-in")
    (fun _ => logE LogLevel.critical "Unable to locate login form" [])

/-- Source lines 190-203: the captcha probe; presence is fatal
(critical log, browser close, `exit(0)`), absence-within-timeout is the
success path. -/
def loginCaptchaCheck (env : LoginEnv) : M Unit :=
  tryCatchOn isTimeoutExn
    (do
      logE LogLevel.debug "Checking for captcha" []
      let _ ← wait "talon_frame_login_prod" env.captchaFrame
      logE LogLevel.critical "Captcha found. Can\x27t procede any further." []
      emit Event.closeBrowser
      raiseExit0)
    (fun _ => logE LogLevel.debug "captcha not detected." [])

/-- Source lines 205-212: the 2FA block, guarded by `TOTP is not None`;
the code-field wait is unguarded by any `try`, so its timeout
propagates. -/
def loginTotp (cfg : Config) (env : LoginEnv) : M Unit :=
  match cfg.totp with
  | none => M.pure ()
  | some code => do
      logE LogLevel.debug "wait for 2fa field on login page" []
      let _ ← wait "code" env.totpField
      emit (Event.sendKeys "code" code)
      logE LogLevel.debug "logging in with 2FA" []
      let _ ← find "continue" env.continueBtn
      click "continue"

/-- Source lines 214-232: the invalid-credentials probe; visibility is
fatal (critical log, browser close, `exit(0)`), timeout is the success
path. -/
def loginInvalidCheck (env : LoginEnv) : M Unit :=
  tryCatchOn isTimeoutExn
    (do
      logE LogLevel.debug "search for wrong credentials message" []
      let _ ← wait "invalid-credentials" env.invalidCreds
      logE LogLevel.critical "failed to login into account, credentials invalid" []
      emit Event.closeBrowser
      raiseExit0)
    (fun _ => logE LogLevel.debug "login succeeded" [])

/-- Source lines 190-232: everything that follows the login-form `try`. -/
def loginRest (cfg : Config) (env : LoginEnv) : M Unit := do
  loginCaptchaCheck env
  loginTotp cfg env
  loginInvalidCheck env

def login (cfg : Config) (env : LoginEnv) : M Unit := do
  loginFormPhase cfg env
  loginRest cfg env

-- § execute (src/main.py lines 235-398)

/-- Source lines 286-304: the mature-content interstitial; both waits sit
in one `try` whose `except TimeoutException` logs at debug level. -/
def matureBypass (page : IterPage) : M Unit := do
  logE LogLevel.debug "bypass mature content block" []
  tryCatchOn isTimeoutExn
    (do
      let _ ← wait "mature-content-span" page.mature
      let _ ← wait "continue-button" page.matureContinue
      click "continue-button")
    (fun _ => logE LogLevel.debug "no mature content block to bypass" [])

/-- Source lines 360-386: the editions/add-ons sub-loop.  The source reads

    editions_addons_buttons = WebDriverWait(browser, TIMEOUT)
    editions_addons_buttons.until(EC.visibility_of_all_elements_located(...))
    if editions_addons_buttons[t].text == "OWNED": ...

The result of `until` is discarded, so `editions_addons_buttons` stays the
`WebDriverWait` object, and subscripting it (`[t]`) raises `TypeError`
before any sub-item classification can happen.  `fuel` is
`len(addons_titles)` minus the iterations already done. -/
def editionsSubLoop (subWaits : Nat → Option Unit) (fuel t : Nat) : M Unit :=
  match fuel with
  | 0 => M.pure ()
  | Nat.succ k => do
      let _ ← wait "editions-addons-buttons" (subWaits t)
      let _ ← (raiseE Exn.typeError : M Unit)
      editionsSubLoop subWaits k (t + 1)

/-- Source lines 347-386: the SEE EDITIONS branch. -/
def seeEditionsBranch (page : IterPage) (name : String) : M Unit := do
  logE LogLevel.debug "processing editions for \"%s\"" [name]
  let titles ← wait "editions-addons-titles" page.editionTitles
  editionsSubLoop page.subWaits titles.length 0

/-- Source lines 330-391: dispatch on the purchase-button text. -/
def offerBranch (page : IterPage) (label name price expires : String) :
    M Unit :=
  if label = "OWNED" then
    logE LogLevel.info "\"%s\" already owned. Price was %s and %s"
      [name, price, expires]
  else if label = "GET" then do
    logE LogLevel.info "obtaining \"%s\"" [name]
    click "purchase-cta-button"
    purchase_steps page.purchase
    logE LogLevel.info "obtained %s. Price was %s and %s"
      [name, price, expires]
  else if label = "SEE EDITIONS" then
    seeEditionsBranch page name
  else
    logE LogLevel.warning "purchase button text not recognized: %s" [label]

/-- Source lines 275-394: the body of one iteration of the offer loop. -/
def processOffer (page : IterPage) (i : Nat) : M Unit := do
  logE LogLevel.debug "wait for and get all free games available" []
  let n ← wait "free-now-dash-links" page.refetch
  pyCheckIndex i n
  emit (Event.clickNth "games_found" i)
  matureBypass page
  logE LogLevel.debug "find the purchase button" []
  let label ← wait "purchase-cta-button" page.purchaseBtn
  logE LogLevel.debug "extract game title" []
  let name ← find "NavigationVertical-h2" page.nameText
  logE LogLevel.debug "extract game price" []
  let price ← find "price-strike" page.priceText
  logE LogLevel.debug "extract sales end date" []
  let expires ← find "sale-ends-span" page.expiresText
  offerBranch page label name price expires
  emit (Event.navigate FREE_GAMES_PAGE_URL)

/-- `for i in range(len(games_found))`, iterating `processOffer`. -/
def offersLoop (iters : Nat → IterPage) (fuel i : Nat) : M Unit :=
  match fuel with
  | 0 => M.pure ()
  | Nat.succ k => do
      processOffer (iters i) i
      offersLoop iters k (i + 1)

/-- Source lines 249-260: the initial free-games query; its timeout is
logged at critical level and makes `execute` return early
(`some n` = the initial list length, `none` = the early return). -/
def getGames (env : ExecEnv) : M (Option Nat) :=
  tryCatchOn isTimeoutExn
    (do
      logE LogLevel.debug "wait for and get all free games available" []
      let n ← wait "free-now-links" env.initial
      M.pure (some n))
    (fun _ => do
      logE LogLevel.critical "no free games found" []
      M.pure none)

/-- Source lines 262-273: the cookie-banner dismissal.  Note the handler
catches `NoSuchElementException` only, while the bounded wait raises
`TimeoutException` on timeout. -/
def cookieBannerStep (env : ExecEnv) : M Unit :=
  tryCatchOn isNoSuchExn
    (do
      logE LogLevel.debug "close the cookies banner" []
      let _ ← wait "onetrust-close-btn" env.cookieBanner
      click "onetrust-close-btn")
    (fun _ => logE LogLevel.debug "no cookies banner to close" [])

/-- Source lines 248-395: the body of the cycle-level `try`.  The returned
boolean is `false` exactly when the `return` on line 260 fires (in which
case `browser.close()` on line 398 is skipped). -/
def outerBody (env : ExecEnv) : M Bool := do
  let r ← getGames env
  match r with
  | none => M.pure false
  | some n => do
      cookieBannerStep env
      offersLoop env.iters n 0
      logE LogLevel.info "all games processed" []
      M.pure true

/-- Source lines 235-398: one full cycle. -/
def execute (cfg : Config) (env : ExecEnv) : M Unit := do
  emit (Event.navigate FREE_GAMES_PAGE_URL)
  load_cookies env.cookieFile
  tryCatchOn isNoSuchExn
    (do
      let _ ← find "log-out" env.logoutEl
      M.pure ())
    (fun _ => login cfg env.loginEnv)
  let finished ← tryCatchOn isCycleCaughtExn (outerBody env)
    (fun e => do
      logE LogLevel.critical "traceback" [Exn.name e]
      M.pure true)
  if finished then emit Event.closeBrowser else M.pure ()

-- § main run loop (src/main.py lines 414-418)

/-- Source lines 415-418: `while SLEEPTIME >= 0: sleep; execute()`.
`fuel` bounds how far we unroll the (source-level unbounded) loop. -/
def sleepRepeat (s : Int) (cfg : Config) (env : ExecEnv) (fuel : Nat) :
    M Unit :=
  match fuel with
  | 0 => M.pure ()
  | Nat.succ k =>
      if 0 ≤ s then do
        logE LogLevel.info "sleeping for %i seconds" [toString s]
        emit (Event.sleep s)
        execute cfg env
        sleepRepeat s cfg env k
      else M.pure ()

/-- Source lines 414-418: the first `execute()` followed by the sleep
loop. -/
def mainLoop (s : Int) (cfg : Config) (env : ExecEnv) (fuel : Nat) :
    M Unit := do
  execute cfg env
  sleepRepeat s cfg env fuel

-- § Well-formedness of a per-iteration page (used for the enumerator
-- theorems: all elements the iteration requires are present, the label is
-- not SEE EDITIONS, and when the label is GET the two required waits of
-- the purchase flow succeed)

def goodPageB (p : IterPage) (i : Nat) : Bool :=
  (match p.refetch with
   | some n => decide (i < n)
   | none => false) &&
  (match p.purchaseBtn with
   | some l => !(l == "SEE EDITIONS")
   | none => false) &&
  p.nameText.isSome && p.priceText.isSome && p.expiresText.isSome &&
  (!(p.purchaseBtn == some "GET") ||
   (p.purchase.btnPrimary.isSome && p.purchase.confirmation.isSome))

-- § Concrete inputs used by counterexamples and witnesses

def cfg0 : Config :=
  { email := "user@example.com", password := "hunter2", totp := none }

def cfgTotp : Config :=
  { email := "user@example.com", password := "hunter2",
    totp := some "123456" }

def purchaseEnvSmooth : PurchaseEnv :=
  { agree := none, accept := none, ctaAgain := none,
    btnPrimary := some (), refundBtns := some 2, confirmation := some () }

def loginEnvUnused : LoginEnv :=
  { userBtn := none, loginWithEpic := none, emailField := none,
    passwordField := none, signInBtn := none, captchaFrame := none,
    totpField := none, continueBtn := none, invalidCreds := none }

def ownedPage : IterPage :=
  { refetch := some 2, mature := none, matureContinue := none,
    purchaseBtn := some "OWNED", nameText := some "Game A",
    priceText := some "11.99", expiresText := some "Sale ends 11/29/2019",
    purchase := purchaseEnvSmooth, editionTitles := none,
    subWaits := fun _ => none }

def getPage : IterPage :=
  { refetch := some 2, mature := none, matureContinue := none,
    purchaseBtn := some "GET", nameText := some "Game B",
    priceText := some "5.99", expiresText := some "Sale ends 11/29/2019",
    purchase := purchaseEnvSmooth, editionTitles := none,
    subWaits := fun _ => none }

def mysteryPage : IterPage :=
  { refetch := some 1, mature := none, matureContinue := none,
    purchaseBtn := some "MYSTERY", nameText := some "Game M",
    priceText := some "3.99", expiresText := some "Sale ends 11/29/2019",
    purchase := purchaseEnvSmooth, editionTitles := none,
    subWaits := fun _ => none }

def seeEditionsPage : IterPage :=
  { refetch := some 1, mature := none, matureContinue := none,
    purchaseBtn := some "SEE EDITIONS", nameText := some "Game C",
    priceText := some "19.99", expiresText := some "Sale ends 11/29/2019",
    purchase := purchaseEnvSmooth,
    editionTitles := some ["Edition One"],
    subWaits := fun _ => some () }

/-- One SEE EDITIONS offer with one visible sub-item title; everything
else well-behaved. -/
def envC1 : ExecEnv :=
  { cookieFile := CookieFile.wellFormed [], logoutEl := some (),
    loginEnv := loginEnvUnused, initial := some 1,
    cookieBanner := some (), iters := fun _ => seeEditionsPage }

/-- The login form never appears; neither captcha nor the
invalid-credentials message do either. -/
def loginEnvC2 : LoginEnv := loginEnvUnused

/-- A cycle in which the cookie-banner close button never becomes
clickable, with one perfectly ordinary OWNED offer waiting. -/
def envC3 : ExecEnv :=
  { cookieFile := CookieFile.wellFormed [], logoutEl := some (),
    loginEnv := loginEnvUnused, initial := some 1,
    cookieBanner := none, iters := fun _ => ownedPage }

/-- One SEE EDITIONS offer, used against the claim that any label other
than OWNED/GET is warned about. -/
def envC4cex : ExecEnv :=
  { cookieFile := CookieFile.wellFormed [], logoutEl := some (),
    loginEnv := loginEnvUnused, initial := some 1,
    cookieBanner := some (), iters := fun _ => seeEditionsPage }

/-- Two well-behaved offers: one OWNED, one GET. -/
def envC4w : ExecEnv :=
  { cookieFile := CookieFile.wellFormed [], logoutEl := some (),
    loginEnv := loginEnvUnused, initial := some 2,
    cookieBanner := some (),
    iters := fun j => if j == 0 then ownedPage else getPage }

/-- A fully present login form with a captcha iframe. -/
def loginEnvC6a : LoginEnv :=
  { userBtn := some (), loginWithEpic := some (), emailField := some (),
    passwordField := some (), signInBtn := some (),
    captchaFrame := some (), totpField := none, continueBtn := none,
    invalidCreds := none }

/-- A fully present login form, no captcha, with the invalid-credentials
message visible. -/
def loginEnvC6b : LoginEnv :=
  { userBtn := some (), loginWithEpic := some (), emailField := some (),
    passwordField := some (), signInBtn := some (),
    captchaFrame := none, totpField := none, continueBtn := none,
    invalidCreds := some () }

/-- A fully present login form, no captcha, 2FA field and continue button
present, no invalid-credentials message. -/
def loginEnvC7 : LoginEnv :=
  { userBtn := some (), loginWithEpic := some (), emailField := some (),
    passwordField := some (), signInBtn := some (),
    captchaFrame := none, totpField := some (), continueBtn := some (),
    invalidCreds := none }

def peC8 : PurchaseEnv :=
  { agree := none, accept := none, ctaAgain := none,
    btnPrimary := some (), refundBtns := some 2, confirmation := some () }

/-- A cycle whose initial free-games query times out: `execute` logs
critical and returns early with status ok. -/
def envC9 : ExecEnv :=
  { cookieFile := CookieFile.wellFormed [], logoutEl := some (),
    loginEnv := loginEnvUnused, initial := none,
    cookieBanner := none, iters := fun _ => ownedPage }

/-- Agreement control present but the Accept button never appears. -/
def peC10 : PurchaseEnv :=
  { agree := some (), accept := none, ctaAgain := none,
    btnPrimary := some (), refundBtns := none, confirmation := some () }

/-- A per-iteration page supplies everything its iteration needs, its
label is not SEE EDITIONS, and when the label is GET the two required
waits of the purchase flow succeed. -/
def GoodIter (iters : Nat → IterPage) (j : Nat) : Prop :=
  ∃ n label name price expires,
    (iters j).refetch = some n ∧ j < n ∧
    (iters j).purchaseBtn = some label ∧ label ≠ "SEE EDITIONS" ∧
    (iters j).nameText = some name ∧ (iters j).priceText = some price ∧
    (iters j).expiresText = some expires ∧
    (label = "GET" → (iters j).purchase.btnPrimary = some () ∧
      (iters j).purchase.confirmation = some ())

-- § Helper lemmas

attribute [simp] M.pure M.bind emit logE click wait find raiseE raiseExit0
  tryCatchOn pyCheckIndex isTimeoutExn isNoSuchExn isRefundCaughtExn
  isCycleCaughtExn addOneCookie Exn.name

theorem bind_def {α β : Type} (x : M α) (f : α → M β) :
    x >>= f = M.bind x f := rfl

theorem pure_def {α : Type} (a : α) : (pure a : M α) = M.pure a := rfl

attribute [simp] bind_def pure_def

theorem bind_of_ok {α β : Type} {x : M α} {a : α}
    (h : x.2 = Status.ok a) (f : α → M β) :
    M.bind x f = (x.1 ++ (f a).1, (f a).2) := by
  simp [M.bind, h]

theorem bind_pure_self (x : M Unit) :
    M.bind x (fun _ => M.pure ()) = x := by
  rcases x with ⟨tr, st⟩
  cases st with
  | ok a => cases a; simp [M.bind, M.pure]
  | raised e => simp [M.bind]
  | exited c => simp [M.bind]

theorem countP_append (p : Event → Bool) (a b : List Event) :
    countP p (a ++ b) = countP p a + countP p b := by
  simp [countP, List.filter_append]

theorem bind_of_exited {α β : Type} {x : M α} {c : Nat}
    (h : x.2 = Status.exited c) (f : α → M β) :
    M.bind x f = (x.1, Status.exited c) := by
  simp [M.bind, h]

/-- The agreement `try` swallows every exception its body can raise. -/
theorem agreementPhase_ok (pe : PurchaseEnv) :
    (agreementPhase pe).2 = Status.ok () := by
  rcases pe with ⟨a, b, c, p, r, cf⟩
  cases a <;> cases b <;> cases c <;> simp [agreementPhase]

theorem primaryPhase_ok (pe : PurchaseEnv) (h : pe.btnPrimary = some ()) :
    (primaryPhase pe).2 = Status.ok () := by
  simp [primaryPhase, h]

/-- The refund `try` swallows every exception its body can raise. -/
theorem refundPhase_ok (pe : PurchaseEnv) :
    (refundPhase pe).2 = Status.ok () := by
  rcases pe with ⟨a, b, c, p, r, cf⟩
  cases r with
  | none => simp [refundPhase]
  | some n =>
      by_cases hn : 1 < n <;> simp [refundPhase, hn]

theorem confirmationPhase_ok (pe : PurchaseEnv)
    (h : pe.confirmation = some ()) :
    (confirmationPhase pe).2 = Status.ok () := by
  simp [confirmationPhase, h]

/-- When the primary purchase button and the confirmation text both show
up in time, `purchase_steps` completes normally. -/
theorem purchase_steps_ok (pe : PurchaseEnv)
    (h1 : pe.btnPrimary = some ()) (h2 : pe.confirmation = some ()) :
    (purchase_steps pe).2 = Status.ok () := by
  have ha := agreementPhase_ok pe
  have hp := primaryPhase_ok pe h1
  have hr := refundPhase_ok pe
  have hc := confirmationPhase_ok pe h2
  simp [purchase_steps, ha, hp, hr, hc]

theorem countP_bind_zero {α β : Type} (p : Event → Bool) (x : M α)
    (f : α → M β) (hx : countP p x.1 = 0)
    (hf : ∀ a, countP p (f a).1 = 0) :
    countP p (M.bind x f).1 = 0 := by
  rcases x with ⟨tr, st⟩
  cases st with
  | ok a =>
      have h2 := hf a
      simp only [M.bind]
      simp only [countP, List.filter_append, List.length_append] at h2 hx ⊢
      omega
  | raised e => simpa [M.bind] using hx
  | exited c => simpa [M.bind] using hx

/-- No phase of `purchase_steps` emits an enumerator action log. -/
theorem agreementPhase_no_action (pe : PurchaseEnv) :
    actionCount (agreementPhase pe).1 = 0 := by
  rcases pe with ⟨a, b, c, p, r, cf⟩
  cases a <;> cases b <;> cases c <;>
    simp [agreementPhase, actionCount, countP, isActionLog]

theorem primaryPhase_no_action (pe : PurchaseEnv) :
    actionCount (primaryPhase pe).1 = 0 := by
  rcases pe with ⟨a, b, c, p, r, cf⟩
  cases p <;> simp [primaryPhase, actionCount, countP, isActionLog]

theorem refundPhase_no_action (pe : PurchaseEnv) :
    actionCount (refundPhase pe).1 = 0 := by
  rcases pe with ⟨a, b, c, p, r, cf⟩
  cases r with
  | none => simp [refundPhase, actionCount, countP, isActionLog]
  | some n =>
      by_cases hn : 1 < n <;>
        simp [refundPhase, hn, actionCount, countP, isActionLog]

theorem confirmationPhase_no_action (pe : PurchaseEnv) :
    actionCount (confirmationPhase pe).1 = 0 := by
  rcases pe with ⟨a, b, c, p, r, cf⟩
  cases cf <;> simp [confirmationPhase, actionCount, countP, isActionLog]

/-- Whatever the environment, `purchase_steps` emits none of the three
per-offer action logs of the enumerator. -/
theorem purchase_steps_no_action (pe : PurchaseEnv) :
    actionCount (purchase_steps pe).1 = 0 := by
  simp only [purchase_steps, bind_def, actionCount]
  refine countP_bind_zero _ _ _ (agreementPhase_no_action pe) fun _ => ?_
  refine countP_bind_zero _ _ _ (primaryPhase_no_action pe) fun _ => ?_
  exact countP_bind_zero _ _ _ (refundPhase_no_action pe)
    fun _ => confirmationPhase_no_action pe

/-- The mature-content bypass always completes normally, with one of three
possible traces (span absent; span present but Continue absent; both
present). -/
theorem matureBypass_cases (pg : IterPage) :
    matureBypass pg =
      ([Event.log LogLevel.debug "bypass mature content block" [],
        Event.locate "mature-content-span",
        Event.log LogLevel.debug "no mature content block to bypass" []],
       Status.ok ()) ∨
    matureBypass pg =
      ([Event.log LogLevel.debug "bypass mature content block" [],
        Event.locate "mature-content-span", Event.locate "continue-button",
        Event.log LogLevel.debug "no mature content block to bypass" []],
       Status.ok ()) ∨
    matureBypass pg =
      ([Event.log LogLevel.debug "bypass mature content block" [],
        Event.locate "mature-content-span", Event.locate "continue-button",
        Event.click "continue-button"],
       Status.ok ()) := by
  cases hm : pg.mature <;> cases hc : pg.matureContinue <;>
    simp [matureBypass, hm, hc]

/-- Dispatch facts for a label other than SEE EDITIONS: the branch
completes normally (for GET: provided the two required waits of the
purchase flow succeed), emits exactly one action log, and emits the
purchase-flow marker only in the GET case. -/
theorem offerBranch_facts (pg : IterPage) (label name price expires : String)
    (hSE : label ≠ "SEE EDITIONS")
    (hGET : label = "GET" → pg.purchase.btnPrimary = some () ∧
      pg.purchase.confirmation = some ()) :
    (offerBranch pg label name price expires).2 = Status.ok () ∧
    actionCount (offerBranch pg label name price expires).1 = 1 ∧
    (label ≠ "GET" →
      countMsg "find and click on the last purchase button"
        (offerBranch pg label name price expires).1 = 0) := by
  by_cases l1 : label = "OWNED"
  · subst l1
    simp [offerBranch, actionCount, countP, isActionLog, countMsg]
  · by_cases l2 : label = "GET"
    · subst l2
      obtain ⟨hb, hc⟩ := hGET rfl
      have hok := purchase_steps_ok pg.purchase hb hc
      have hna := purchase_steps_no_action pg.purchase
      simp only [actionCount, countP] at hna
      rw [List.length_eq_zero] at hna
      refine ⟨?_, ?_, ?_⟩
      · simp [offerBranch, hok]
      · simp [offerBranch, hok, actionCount, countP, isActionLog,
          List.filter_append, hna]
      · intro hcontra; exact absurd rfl hcontra
    · simp [offerBranch, l1, l2, hSE, actionCount, countP, isActionLog,
        countMsg]

/-- One iteration of the offer loop, for a page whose label is not SEE
EDITIONS and which supplies every element the iteration needs: the
iteration completes normally, performs exactly one of the three actions,
and enters the purchase flow only for GET. -/
theorem processOffer_ok_one_action (pg : IterPage) (i n : Nat)
    (label name price expires : String)
    (h1 : pg.refetch = some n) (h2 : i < n)
    (h3 : pg.purchaseBtn = some label) (hSE : label ≠ "SEE EDITIONS")
    (h4 : pg.nameText = some name) (h5 : pg.priceText = some price)
    (h6 : pg.expiresText = some expires)
    (hGET : label = "GET" → pg.purchase.btnPrimary = some () ∧
      pg.purchase.confirmation = some ()) :
    (processOffer pg i).2 = Status.ok () ∧
    actionCount (processOffer pg i).1 = 1 ∧
    (label ≠ "GET" →
      countMsg "find and click on the last purchase button"
        (processOffer pg i).1 = 0) := by
  obtain ⟨hObrOk, hObrCnt, hObrMk⟩ :=
    offerBranch_facts pg label name price expires hSE hGET
  have hCnt : (List.filter isActionLog
      (offerBranch pg label name price expires).1).length = 1 := by
    simpa only [actionCount, countP] using hObrCnt
  rcases matureBypass_cases pg with hm | hm | hm
  all_goals {
    refine ⟨?_, ?_, ?_⟩
    · simp [processOffer, h1, h2, h3, h4, h5, h6, hm, hObrOk]
    · simp [processOffer, h1, h2, h3, h4, h5, h6, hm, hObrOk, actionCount,
        countP, isActionLog, List.filter_append, hCnt]
    · intro hne
      have hmk := hObrMk hne
      simp only [countMsg, countP] at hmk
      rw [List.length_eq_zero] at hmk
      simp [processOffer, h1, h2, h3, h4, h5, h6, hm, hObrOk, countMsg,
        countP, List.filter_append, hmk]
  }

/-- The offer loop over `fuel` consecutive well-supplied pages completes
normally and performs exactly one action per iteration. -/
theorem offersLoop_good (iters : Nat → IterPage) :
    ∀ fuel start, (∀ k, k < fuel → GoodIter iters (start + k)) →
      (offersLoop iters fuel start).2 = Status.ok () ∧
      actionCount (offersLoop iters fuel start).1 = fuel := by
  intro fuel
  induction fuel with
  | zero =>
      intro start h
      simp [offersLoop, actionCount, countP]
  | succ k ih =>
      intro start h
      have h0 : GoodIter iters start := by
        have := h 0 (Nat.succ_pos k); simpa using this
      obtain ⟨n, label, name, price, expires, g1, g2, g3, g4, g5, g6, g7, g8⟩ :=
        h0
      obtain ⟨pOk, pCnt, -⟩ :=
        processOffer_ok_one_action (iters start) start n label name price
          expires g1 g2 g3 g4 g5 g6 g7 g8
      have hrest : ∀ m, m < k → GoodIter iters (start + 1 + m) := by
        intro m hm
        have hh := h (m + 1) (by omega)
        have e : start + (m + 1) = start + 1 + m := by omega
        rwa [e] at hh
      obtain ⟨rOk, rCnt⟩ := ih (start + 1) hrest
      constructor
      · simp only [offersLoop, bind_def]
        rw [bind_of_ok pOk]
        exact rOk
      · simp only [offersLoop, bind_def]
        rw [bind_of_ok pOk]
        simp only [actionCount] at pCnt rCnt ⊢
        simp [countP_append, pCnt, rCnt, Nat.add_comm]

-- § Claim theorems

/-- C1: the claim says a SEE EDITIONS offer with M visible sub-item titles
has each of its M sub-items classified OWNED/GET/other with a
history-back after each GET purchase.  In the code the result of the
buttons `until` is discarded, so the sub-loop subscripts the
`WebDriverWait` object itself and raises `TypeError` at the first
sub-item: no sub-item is ever classified, no action log is emitted, and
the `TypeError` escapes even the cycle-level handler (which catches only
the three Selenium exception classes), so `browser.close()` never runs. -/
theorem see_editions_subloop_raises_type_error :
    (execute cfg0 envC1).2 = Status.raised Exn.typeError ∧
    actionCount (execute cfg0 envC1).1 = 0 ∧
    Event.closeBrowser ∉ (execute cfg0 envC1).1 := by
  decide

/-- C2 counterexample: with the login form never appearing (and neither
captcha nor the invalid-credentials message), `login` logs exactly one
critical entry (`Unable to locate login form`) and then returns
normally — the process does not terminate, refuting the claim that a
login-form timeout terminates the process. -/
theorem login_form_timeout_process_continues_cex :
    (login cfg0 loginEnvC2).2 = Status.ok () ∧
    countLevel LogLevel.critical (login cfg0 loginEnvC2).1 = 1 ∧
    countMsg "Unable to locate login form" (login cfg0 loginEnvC2).1 = 1 := by
  decide

/-- C3: the claim (and the debug message of the handler itself) intend a
cookie-banner timeout to be swallowed locally, but the handler catches
`NoSuchElementException` while the wait raises `TimeoutException`: on a
cycle whose banner close button never becomes clickable, the timeout
escapes to the cycle-level handler, which logs the traceback at critical
level and ends the cycle with zero offers processed; the local debug
message is never emitted. -/
theorem cookie_banner_timeout_escapes_to_cycle_handler :
    (outerBody envC3).2 = Status.raised Exn.timeout ∧
    countMsg "no cookies banner to close" (execute cfg0 envC3).1 = 0 ∧
    countMsg "traceback" (execute cfg0 envC3).1 = 1 ∧
    countLevel LogLevel.critical (execute cfg0 envC3).1 = 1 ∧
    actionCount (execute cfg0 envC3).1 = 0 ∧
    (execute cfg0 envC3).2 = Status.ok () := by
  decide

/-- C4 counterexample: an offer whose label is SEE EDITIONS receives none
of the three actions the claim allows — in particular no warning log, so
the claim that any label other than OWNED/GET is warned about is false
(the branch enters the editions sub-flow instead, which in the current
code raises `TypeError`). -/
theorem see_editions_offer_not_warned_cex :
    countLevel LogLevel.warning (outerBody envC4cex).1 = 0 ∧
    actionCount (outerBody envC4cex).1 = 0 ∧
    (outerBody envC4cex).2 = Status.raised Exn.typeError := by
  decide

/-- C2 (amended): when any of the login-form waits (account menu, login
method, email field, or — with the password field present — the sign-in
button) times out, the failure is logged exactly once at critical level
and the login flow then continues to the captcha check and the remaining
login steps; the timeout itself does not terminate the process. -/
theorem login_form_timeout_logs_critical_and_continues
    (cfg : Config) (env : LoginEnv)
    (h : env.userBtn = none ∨
      (env.userBtn = some () ∧ env.loginWithEpic = none) ∨
      (env.userBtn = some () ∧ env.loginWithEpic = some () ∧
        env.emailField = none) ∨
      (env.userBtn = some () ∧ env.loginWithEpic = some () ∧
        env.emailField = some () ∧ env.passwordField = some () ∧
        env.signInBtn = none)) :
    (loginFormPhase cfg env).2 = Status.ok () ∧
    countLevel LogLevel.critical (loginFormPhase cfg env).1 = 1 ∧
    countMsg "Unable to locate login form" (loginFormPhase cfg env).1 = 1 ∧
    (login cfg env).1 =
      (loginFormPhase cfg env).1 ++ (loginRest cfg env).1 ∧
    (login cfg env).2 = (loginRest cfg env).2 := by
  have key : (loginFormPhase cfg env).2 = Status.ok () ∧
      countLevel LogLevel.critical (loginFormPhase cfg env).1 = 1 ∧
      countMsg "Unable to locate login form" (loginFormPhase cfg env).1 = 1 := by
    rcases h with h1 | ⟨h1, h2⟩ | ⟨h1, h2, h3⟩ | ⟨h1, h2, h3, h4, h5⟩ <;>
      simp [loginFormPhase, countLevel, countMsg, countP, *]
  obtain ⟨hOk, hC, hM⟩ := key
  refine ⟨hOk, hC, hM, ?_, ?_⟩
  · simp only [login, bind_def]
    rw [bind_of_ok hOk]
  · simp only [login, bind_def]
    rw [bind_of_ok hOk]

/-- C2 witness: the amended theorem at a concrete environment whose
account-menu wait times out. -/
theorem login_form_timeout_witness :
    (loginFormPhase cfg0 loginEnvC2).2 = Status.ok () ∧
    countLevel LogLevel.critical (loginFormPhase cfg0 loginEnvC2).1 = 1 ∧
    countMsg "Unable to locate login form"
      (loginFormPhase cfg0 loginEnvC2).1 = 1 ∧
    (login cfg0 loginEnvC2).1 =
      (loginFormPhase cfg0 loginEnvC2).1 ++ (loginRest cfg0 loginEnvC2).1 ∧
    (login cfg0 loginEnvC2).2 = (loginRest cfg0 loginEnvC2).2 :=
  login_form_timeout_logs_critical_and_continues cfg0 loginEnvC2 (Or.inl rfl)

/-- C4 (amended): for an initial free-games query of length N, a clickable
cookie banner, and N well-supplied pages none of which is labelled SEE
EDITIONS, the cycle body completes normally, the enumerator visits all N
offers performing exactly one of skip/purchase/warn per offer (N actions
in total), and an OWNED offer never reaches the purchase flow. -/
theorem offers_loop_exactly_one_action_per_offer
    (env : ExecEnv) (N : Nat)
    (hinit : env.initial = some N)
    (hbanner : env.cookieBanner = some ())
    (hgood : ∀ k, k < N → GoodIter env.iters k) :
    (outerBody env).2 = Status.ok true ∧
    actionCount (outerBody env).1 = N ∧
    (∀ j, j < N → actionCount (processOffer (env.iters j) j).1 = 1) ∧
    (∀ j, j < N → (env.iters j).purchaseBtn = some "OWNED" →
      countMsg "find and click on the last purchase button"
        (processOffer (env.iters j) j).1 = 0) := by
  have hgFull : getGames env =
      ([Event.log LogLevel.debug "wait for and get all free games available" [],
        Event.locate "free-now-links"], Status.ok (some N)) := by
    simp [getGames, hinit]
  have hcbFull : cookieBannerStep env =
      ([Event.log LogLevel.debug "close the cookies banner" [],
        Event.locate "onetrust-close-btn", Event.click "onetrust-close-btn"],
       Status.ok ()) := by
    simp [cookieBannerStep, hbanner]
  have hgood0 : ∀ k, k < N → GoodIter env.iters (0 + k) := by
    intro k hk; simpa using hgood k hk
  obtain ⟨lOk, lCnt⟩ := offersLoop_good env.iters N 0 hgood0
  have lCnt2 : (List.filter isActionLog (offersLoop env.iters N 0).1).length = N := by
    simpa only [actionCount, countP] using lCnt
  refine ⟨?_, ?_, ?_, ?_⟩
  · simp [outerBody, hgFull, hcbFull, lOk]
  · simp [outerBody, hgFull, hcbFull, lOk, actionCount, countP, isActionLog,
      List.filter_append, lCnt2]
  · intro j hj
    obtain ⟨n, label, name, price, expires, g1, g2, g3, g4, g5, g6, g7, g8⟩ :=
      hgood j hj
    exact (processOffer_ok_one_action (env.iters j) j n label name price
      expires g1 g2 g3 g4 g5 g6 g7 g8).2.1
  · intro j hj hOwned
    obtain ⟨n, label, name, price, expires, g1, g2, g3, g4, g5, g6, g7, g8⟩ :=
      hgood j hj
    have hl : label = "OWNED" := Option.some.inj (g3.symm.trans hOwned)
    subst hl
    exact (processOffer_ok_one_action (env.iters j) j n "OWNED" name price
      expires g1 g2 g3 g4 g5 g6 g7 g8).2.2 (by decide)

/-- C4 witness: the amended theorem at a cycle with two offers, one OWNED
and one GET. -/
theorem offers_loop_one_action_witness :
    (outerBody envC4w).2 = Status.ok true ∧
    actionCount (outerBody envC4w).1 = 2 ∧
    actionCount (processOffer (envC4w.iters 0) 0).1 = 1 ∧
    actionCount (processOffer (envC4w.iters 1) 1).1 = 1 ∧
    countMsg "find and click on the last purchase button"
      (processOffer (envC4w.iters 0) 0).1 = 0 := by
  have X := offers_loop_exactly_one_action_per_offer envC4w 2 rfl rfl (by
    intro k hk
    interval_cases k
    · exact ⟨2, "OWNED", "Game A", "11.99", "Sale ends 11/29/2019", rfl,
        by decide, rfl, by decide, rfl, rfl, rfl, fun _ => ⟨rfl, rfl⟩⟩
    · exact ⟨2, "GET", "Game B", "5.99", "Sale ends 11/29/2019", rfl,
        by decide, rfl, by decide, rfl, rfl, rfl, fun _ => ⟨rfl, rfl⟩⟩)
  exact ⟨X.1, X.2.1, X.2.2.1 0 (by decide), X.2.2.1 1 (by decide),
    X.2.2.2 0 (by decide) rfl⟩

/-- C5: an offer whose purchase-button label is none of OWNED, GET,
SEE EDITIONS triggers zero clicks on purchase controls, exactly one
warning-level log entry, the iteration completes normally, and the offer
loop then continues with the next index. -/
theorem unrecognized_label_warns_once_no_clicks
    (pg : IterPage) (i n : Nat) (label name price expires : String)
    (h1 : pg.refetch = some n) (h2 : i < n)
    (h3 : pg.purchaseBtn = some label)
    (h4 : pg.nameText = some name) (h5 : pg.priceText = some price)
    (h6 : pg.expiresText = some expires)
    (hA : label ≠ "OWNED") (hB : label ≠ "GET")
    (hC : label ≠ "SEE EDITIONS") :
    (processOffer pg i).2 = Status.ok () ∧
    countP isPurchaseControlClick (processOffer pg i).1 = 0 ∧
    countLevel LogLevel.warning (processOffer pg i).1 = 1 ∧
    (∀ iters fuel, iters i = pg →
      offersLoop iters (fuel + 1) i =
        ((processOffer pg i).1 ++ (offersLoop iters fuel (i + 1)).1,
         (offersLoop iters fuel (i + 1)).2)) := by
  rcases matureBypass_cases pg with hm | hm | hm
  all_goals {
    have hOk : (processOffer pg i).2 = Status.ok () := by
      simp [processOffer, offerBranch, h1, h2, h3, h4, h5, h6, hm, hA, hB, hC]
    refine ⟨hOk, ?_, ?_, ?_⟩
    · simp [processOffer, offerBranch, h1, h2, h3, h4, h5, h6, hm, hA, hB,
        hC, countP, isPurchaseControlClick]
    · simp [processOffer, offerBranch, h1, h2, h3, h4, h5, h6, hm, hA, hB,
        hC, countLevel, countP]
    · intro iters fuel hit
      simp only [offersLoop, bind_def, hit]
      rw [bind_of_ok hOk]
  }

/-- C5 witness: the theorem at a one-offer page labelled MYSTERY, with the
loop continuation instantiated at a constant page family and fuel 0. -/
theorem unrecognized_label_witness :
    (processOffer mysteryPage 0).2 = Status.ok () ∧
    countP isPurchaseControlClick (processOffer mysteryPage 0).1 = 0 ∧
    countLevel LogLevel.warning (processOffer mysteryPage 0).1 = 1 ∧
    offersLoop (fun _ => mysteryPage) 1 0 =
      ((processOffer mysteryPage 0).1 ++
        (offersLoop (fun _ => mysteryPage) 0 1).1,
       (offersLoop (fun _ => mysteryPage) 0 1).2) := by
  have X := unrecognized_label_warns_once_no_clicks mysteryPage 0 1 "MYSTERY"
    "Game M" "3.99" "Sale ends 11/29/2019" rfl (by decide) rfl rfl rfl rfl
    (by decide) (by decide) (by decide)
  exact ⟨X.1, X.2.1, X.2.2.1, X.2.2.2 (fun _ => mysteryPage) 0 rfl⟩

/-- C6: whenever the login-form phase completes without raising, both
authentication-fatal paths — captcha iframe present, and (captcha absent,
2FA step passable) invalid-credentials message visible — log at critical
level, close the browser, and terminate the whole process with exit code
0: the trace ends with the critical entry followed by the browser close,
and the status is `exited 0`. -/
theorem auth_fatal_paths_close_and_exit_zero
    (cfg : Config) (env : LoginEnv)
    (hform : (loginFormPhase cfg env).2 = Status.ok ()) :
    (env.captchaFrame = some () →
      (login cfg env).2 = Status.exited 0 ∧
      List.IsSuffix
        [Event.log LogLevel.critical
          "Captcha found. Can\x27t procede any further." [],
         Event.closeBrowser] (login cfg env).1) ∧
    (env.captchaFrame = none → env.invalidCreds = some () →
      (cfg.totp = none ∨
        (env.totpField = some () ∧ env.continueBtn = some ())) →
      (login cfg env).2 = Status.exited 0 ∧
      List.IsSuffix
        [Event.log LogLevel.critical
          "failed to login into account, credentials invalid" [],
         Event.closeBrowser] (login cfg env).1) := by
  have hLog : login cfg env =
      ((loginFormPhase cfg env).1 ++ (loginRest cfg env).1,
       (loginRest cfg env).2) := by
    simp only [login, bind_def]
    rw [bind_of_ok hform]
  constructor
  · intro hcap
    have hc : loginCaptchaCheck env =
        ([Event.log LogLevel.debug "Checking for captcha" [],
          Event.locate "talon_frame_login_prod",
          Event.log LogLevel.critical
            "Captcha found. Can\x27t procede any further." [],
          Event.closeBrowser], Status.exited 0) := by
      simp [loginCaptchaCheck, hcap]
    have hrest : loginRest cfg env =
        ([Event.log LogLevel.debug "Checking for captcha" [],
          Event.locate "talon_frame_login_prod",
          Event.log LogLevel.critical
            "Captcha found. Can\x27t procede any further." [],
          Event.closeBrowser], Status.exited 0) := by
      simp only [loginRest, bind_def]
      rw [hc]
      simp [M.bind]
    constructor
    · rw [hLog, hrest]
    · refine ⟨(loginFormPhase cfg env).1 ++
        [Event.log LogLevel.debug "Checking for captcha" [],
         Event.locate "talon_frame_login_prod"], ?_⟩
      rw [hLog, hrest]
      simp
  · intro hcap hinv htotp
    have hc : loginCaptchaCheck env =
        ([Event.log LogLevel.debug "Checking for captcha" [],
          Event.locate "talon_frame_login_prod",
          Event.log LogLevel.debug "captcha not detected." []],
         Status.ok ()) := by
      simp [loginCaptchaCheck, hcap]
    have hi : loginInvalidCheck env =
        ([Event.log LogLevel.debug "search for wrong credentials message" [],
          Event.locate "invalid-credentials",
          Event.log LogLevel.critical
            "failed to login into account, credentials invalid" [],
          Event.closeBrowser], Status.exited 0) := by
      simp [loginInvalidCheck, hinv]
    have hTotpOk : (loginTotp cfg env).2 = Status.ok () := by
      rcases htotp with ht | ⟨ht1, ht2⟩
      · simp [loginTotp, ht]
      · cases hcfg : cfg.totp with
        | none => simp [loginTotp, hcfg]
        | some code => simp [loginTotp, hcfg, ht1, ht2]
    have hrest : loginRest cfg env =
        ([Event.log LogLevel.debug "Checking for captcha" [],
          Event.locate "talon_frame_login_prod",
          Event.log LogLevel.debug "captcha not detected." []] ++
         ((loginTotp cfg env).1 ++
          [Event.log LogLevel.debug "search for wrong credentials message" [],
           Event.locate "invalid-credentials",
           Event.log LogLevel.critical
             "failed to login into account, credentials invalid" [],
           Event.closeBrowser]), Status.exited 0) := by
      simp only [loginRest, bind_def]
      rw [bind_of_ok (x := loginCaptchaCheck env) (by rw [hc]) ]
      rw [bind_of_ok hTotpOk]
      rw [hi]
      simp [hc]
    constructor
    · rw [hLog, hrest]
    · refine ⟨(loginFormPhase cfg env).1 ++
        ([Event.log LogLevel.debug "Checking for captcha" [],
          Event.locate "talon_frame_login_prod",
          Event.log LogLevel.debug "captcha not detected." []] ++
         ((loginTotp cfg env).1 ++
          [Event.log LogLevel.debug "search for wrong credentials message" [],
           Event.locate "invalid-credentials"])), ?_⟩
      rw [hLog, hrest]
      simp [hc]

/-- C6 witness: the theorem at a captcha-blocked environment and at an
invalid-credentials environment. -/
theorem auth_fatal_witness :
    ((login cfg0 loginEnvC6a).2 = Status.exited 0 ∧
     List.IsSuffix
       [Event.log LogLevel.critical
         "Captcha found. Can\x27t procede any further." [],
        Event.closeBrowser] (login cfg0 loginEnvC6a).1) ∧
    ((login cfg0 loginEnvC6b).2 = Status.exited 0 ∧
     List.IsSuffix
       [Event.log LogLevel.critical
         "failed to login into account, credentials invalid" [],
        Event.closeBrowser] (login cfg0 loginEnvC6b).1) :=
  ⟨(auth_fatal_paths_close_and_exit_zero cfg0 loginEnvC6a (by decide)).1 rfl,
   (auth_fatal_paths_close_and_exit_zero cfg0 loginEnvC6b (by decide)).2
     rfl rfl (Or.inl rfl)⟩

theorem locate_code_formPhase (cfg : Config) (env : LoginEnv) :
    locateCount "code" (loginFormPhase cfg env).1 = 0 := by
  rcases env with ⟨u, l, em, pw, si, cap, tot, cont, inv⟩
  cases u <;> cases l <;> cases em <;> cases pw <;> cases si <;>
    simp [loginFormPhase, locateCount, countP]

theorem locate_code_captchaCheck (env : LoginEnv) :
    locateCount "code" (loginCaptchaCheck env).1 = 0 := by
  cases hc : env.captchaFrame <;>
    simp [loginCaptchaCheck, hc, locateCount, countP]

theorem locate_code_invalidCheck (env : LoginEnv) :
    locateCount "code" (loginInvalidCheck env).1 = 0 := by
  cases hi : env.invalidCreds <;>
    simp [loginInvalidCheck, hi, locateCount, countP]

/-- C7: when `TOTP` is unset the login sequence never attempts to locate
the 2FA code field; when it is set (and the login form, captcha probe and
2FA controls behave), the sequence locates the code field exactly once,
and the first 24 trace events show the order: credentials submitted
(`click "sign-in"`), then the code field located and the code submitted,
then the invalid-credentials check begins. -/
theorem totp_gates_twofa_field (cfg : Config) (env : LoginEnv) :
    (cfg.totp = none → locateCount "code" (login cfg env).1 = 0) ∧
    (∀ code, cfg.totp = some code →
      env.userBtn = some () → env.loginWithEpic = some () →
      env.emailField = some () → env.passwordField = some () →
      env.signInBtn = some () → env.captchaFrame = none →
      env.totpField = some () → env.continueBtn = some () →
      locateCount "code" (login cfg env).1 = 1 ∧
      (login cfg env).1.take 24 =
        [Event.log LogLevel.debug "find and click on login button" [],
         Event.locate "user",
         Event.click "user",
         Event.log LogLevel.debug "find and click on EpicGame login method" [],
         Event.locate "login-with-epic",
         Event.click "login-with-epic",
         Event.log LogLevel.debug "wait for email field on login page" [],
         Event.locate "email",
         Event.sendKeys "email" cfg.email,
         Event.locate "password",
         Event.sendKeys "password" cfg.password,
         Event.locate "sign-in",
         Event.click "sign-in",
         Event.log LogLevel.debug "Checking for captcha" [],
         Event.locate "talon_frame_login_prod",
         Event.log LogLevel.debug "captcha not detected." [],
         Event.log LogLevel.debug "wait for 2fa field on login page" [],
         Event.locate "code",
         Event.sendKeys "code" code,
         Event.log LogLevel.debug "logging in with 2FA" [],
         Event.locate "continue",
         Event.click "continue",
         Event.log LogLevel.debug "search for wrong credentials message" [],
         Event.locate "invalid-credentials"]) := by
  constructor
  · intro ht
    simp only [login, loginRest, bind_def, locateCount] at *
    refine countP_bind_zero _ _ _
      (by simpa only [locateCount] using locate_code_formPhase cfg env)
      fun _ => ?_
    refine countP_bind_zero _ _ _
      (by simpa only [locateCount] using locate_code_captchaCheck env)
      fun _ => ?_
    refine countP_bind_zero _ _ _ ?_ fun _ =>
      (by simpa only [locateCount] using locate_code_invalidCheck env)
    simp [loginTotp, ht, countP]
  · intro code ht h1 h2 h3 h4 h5 h6 h7 h8
    cases hi : env.invalidCreds <;>
      constructor <;>
      simp [login, loginFormPhase, loginRest, loginCaptchaCheck, loginTotp,
        loginInvalidCheck, ht, h1, h2, h3, h4, h5, h6, h7, h8, hi,
        locateCount, countP]

/-- C7 witness: the theorem at a TOTP-configured environment (second
conjunct) and at a TOTP-less configuration (first conjunct). -/
theorem totp_witness :
    locateCount "code" (login cfg0 loginEnvC7).1 = 0 ∧
    locateCount "code" (login cfgTotp loginEnvC7).1 = 1 ∧
    (login cfgTotp loginEnvC7).1.take 24 =
      [Event.log LogLevel.debug "find and click on login button" [],
       Event.locate "user",
       Event.click "user",
       Event.log LogLevel.debug "find and click on EpicGame login method" [],
       Event.locate "login-with-epic",
       Event.click "login-with-epic",
       Event.log LogLevel.debug "wait for email field on login page" [],
       Event.locate "email",
       Event.sendKeys "email" cfgTotp.email,
       Event.locate "password",
       Event.sendKeys "password" cfgTotp.password,
       Event.locate "sign-in",
       Event.click "sign-in",
       Event.log LogLevel.debug "Checking for captcha" [],
       Event.locate "talon_frame_login_prod",
       Event.log LogLevel.debug "captcha not detected." [],
       Event.log LogLevel.debug "wait for 2fa field on login page" [],
       Event.locate "code",
       Event.sendKeys "code" "123456",
       Event.log LogLevel.debug "logging in with 2FA" [],
       Event.locate "continue",
       Event.click "continue",
       Event.log LogLevel.debug "search for wrong credentials message" [],
       Event.locate "invalid-credentials"] :=
  ⟨(totp_gates_twofa_field cfg0 loginEnvC7).1 rfl,
   ((totp_gates_twofa_field cfgTotp loginEnvC7).2 "123456" rfl rfl rfl rfl
     rfl rfl rfl rfl rfl).1,
   ((totp_gates_twofa_field cfgTotp loginEnvC7).2 "123456" rfl rfl rfl rfl
     rfl rfl rfl rfl rfl).2⟩

/-- The agreement phase always completes normally, with one of four
possible traces (control absent; control clicked but Accept absent; both
clicked but the re-located call-to-action absent; all three clicked). -/
theorem agreementPhase_cases (pe : PurchaseEnv) :
    agreementPhase pe =
      ([Event.log LogLevel.debug "find and accept license agreement" [],
        Event.locate "agree",
        Event.log LogLevel.debug "no license agreement found" []],
       Status.ok ()) ∨
    agreementPhase pe =
      ([Event.log LogLevel.debug "find and accept license agreement" [],
        Event.locate "agree", Event.click "agree",
        Event.locate "accept-button",
        Event.log LogLevel.debug "no license agreement found" []],
       Status.ok ()) ∨
    agreementPhase pe =
      ([Event.log LogLevel.debug "find and accept license agreement" [],
        Event.locate "agree", Event.click "agree",
        Event.locate "accept-button", Event.click "accept-button",
        Event.log LogLevel.debug "find and clicking again the purchase button" [],
        Event.locate "purchase-cta-button",
        Event.log LogLevel.debug "no license agreement found" []],
       Status.ok ()) ∨
    agreementPhase pe =
      ([Event.log LogLevel.debug "find and accept license agreement" [],
        Event.locate "agree", Event.click "agree",
        Event.locate "accept-button", Event.click "accept-button",
        Event.log LogLevel.debug "find and clicking again the purchase button" [],
        Event.locate "purchase-cta-button",
        Event.click "purchase-cta-button"],
       Status.ok ()) := by
  cases ha : pe.agree <;> cases hb : pe.accept <;> cases hc : pe.ctaAgain <;>
    simp [agreementPhase, ha, hb, hc]

/-- C8: at the refund-notice step, when the wait returns at least two
matching controls the second (index 1) is clicked exactly once; when it
returns fewer than two, or times out, that click never happens and the
flow still reaches the confirmation wait. -/
theorem refund_notice_second_button_or_continue
    (pe : PurchaseEnv) (hp : pe.btnPrimary = some ()) :
    (∀ n, pe.refundBtns = some n → 2 ≤ n →
      clickCount "btn-primary[1]" (purchase_steps pe).1 = 1 ∧
      Event.locate "purchase-confirmation" ∈ (purchase_steps pe).1) ∧
    (pe.refundBtns = none →
      clickCount "btn-primary[1]" (purchase_steps pe).1 = 0 ∧
      Event.locate "purchase-confirmation" ∈ (purchase_steps pe).1) ∧
    (∀ n, pe.refundBtns = some n → n < 2 →
      clickCount "btn-primary[1]" (purchase_steps pe).1 = 0 ∧
      Event.locate "purchase-confirmation" ∈ (purchase_steps pe).1) := by
  have hconfTr : (confirmationPhase pe).1 =
      [Event.log LogLevel.debug
        "Wait for confirmation that checkout is complete" [],
       Event.locate "purchase-confirmation"] := by
    cases hcf : pe.confirmation <;> simp [confirmationPhase, hcf]
  have hprim : primaryPhase pe =
      ([Event.log LogLevel.debug "find and click on the last purchase button" [],
        Event.locate "btn-primary", Event.click "btn-primary"],
       Status.ok ()) := by
    simp [primaryPhase, hp]
  have hps : (purchase_steps pe).1 =
      (agreementPhase pe).1 ++ ((primaryPhase pe).1 ++
        ((refundPhase pe).1 ++ (confirmationPhase pe).1)) := by
    simp only [purchase_steps, bind_def]
    rw [bind_of_ok (agreementPhase_ok pe), bind_of_ok (primaryPhase_ok pe hp),
      bind_of_ok (refundPhase_ok pe)]
  refine ⟨fun n hr hn => ?_, fun hr => ?_, fun n hr hn => ?_⟩
  · have h1n : 1 < n := hn
    have href : (refundPhase pe).1 =
        [Event.log LogLevel.debug "accept the conditions of refund popup" [],
         Event.locate "btn-primary", Event.click "btn-primary[1]"] := by
      simp [refundPhase, hr, h1n]
    rcases agreementPhase_cases pe with hA | hA | hA | hA <;>
      exact ⟨by simp [hps, hA, hprim, href, hconfTr, clickCount, countP,
          List.filter_append],
        by simp [hps, hA, hprim, href, hconfTr]⟩
  · have href : (refundPhase pe).1 =
        [Event.log LogLevel.debug "accept the conditions of refund popup" [],
         Event.locate "btn-primary",
         Event.log LogLevel.debug "no refund conditions popup to accept" []] := by
      simp [refundPhase, hr]
    rcases agreementPhase_cases pe with hA | hA | hA | hA <;>
      exact ⟨by simp [hps, hA, hprim, href, hconfTr, clickCount, countP,
          List.filter_append],
        by simp [hps, hA, hprim, href, hconfTr]⟩
  · have h1n : ¬ 1 < n := by omega
    have href : (refundPhase pe).1 =
        [Event.log LogLevel.debug "accept the conditions of refund popup" [],
         Event.locate "btn-primary",
         Event.log LogLevel.debug "no refund conditions popup to accept" []] := by
      simp [refundPhase, hr, h1n]
    rcases agreementPhase_cases pe with hA | hA | hA | hA <;>
      exact ⟨by simp [hps, hA, hprim, href, hconfTr, clickCount, countP,
          List.filter_append],
        by simp [hps, hA, hprim, href, hconfTr]⟩

/-- C8 witness: the theorem at an environment whose refund wait returns
two controls. -/
theorem refund_notice_witness :
    clickCount "btn-primary[1]" (purchase_steps peC8).1 = 1 ∧
    Event.locate "purchase-confirmation" ∈ (purchase_steps peC8).1 :=
  (refund_notice_second_button_or_continue peC8 rfl).1 2 rfl (by decide)

theorem bind_emit (e : Event) {β : Type} (f : Unit → M β) :
    M.bind (emit e) f = (e :: (f ()).1, (f ()).2) := by
  simp [M.bind, emit]

/-- C9: a negative `SLEEPTIME` makes the run loop execute exactly one
cycle (for every unrolling bound, the whole run equals the single
`execute`), while a non-negative one makes every unrolling step sleep
`SLEEPTIME` seconds and run another full cycle: unrolling one step
prepends one cycle, the sleep log and the sleep to the rest of the run. -/
theorem sleeptime_controls_repetition (s : Int) (cfg : Config)
    (env : ExecEnv) :
    (s < 0 → ∀ fuel, mainLoop s cfg env fuel = execute cfg env) ∧
    (0 ≤ s → (execute cfg env).2 = Status.ok () → ∀ fuel,
      mainLoop s cfg env (fuel + 1) =
        ((execute cfg env).1 ++
          (Event.log LogLevel.info "sleeping for %i seconds" [toString s] ::
           Event.sleep s :: (mainLoop s cfg env fuel).1),
         (mainLoop s cfg env fuel).2)) := by
  constructor
  · intro hs fuel
    have hrep : sleepRepeat s cfg env fuel = M.pure () := by
      cases fuel with
      | zero => rfl
      | succ k => simp [sleepRepeat, not_le.mpr hs]
    simp only [mainLoop, bind_def, hrep]
    exact bind_pure_self (execute cfg env)
  · intro hs hok fuel
    have hrep : sleepRepeat s cfg env (fuel + 1) =
        (Event.log LogLevel.info "sleeping for %i seconds" [toString s] ::
         Event.sleep s :: (mainLoop s cfg env fuel).1,
         (mainLoop s cfg env fuel).2) := by
      simp only [sleepRepeat, if_pos hs, bind_def, logE, bind_emit]
      rfl
    simp only [mainLoop, bind_def]
    rw [bind_of_ok hok, hrep]
    rfl

/-- C9 witness: the theorem at the default-like value `-1` (one cycle) and
at `0` (sleep-and-repeat), on a cycle that completes normally. -/
theorem sleeptime_witness :
    mainLoop (-1) cfg0 envC9 5 = execute cfg0 envC9 ∧
    mainLoop 0 cfg0 envC9 1 =
      ((execute cfg0 envC9).1 ++
        (Event.log LogLevel.info "sleeping for %i seconds"
          [toString (0 : Int)] ::
         Event.sleep 0 :: (mainLoop 0 cfg0 envC9 0).1),
       (mainLoop 0 cfg0 envC9 0).2) :=
  ⟨(sleeptime_controls_repetition (-1) cfg0 envC9).1 (by norm_num) 5,
   (sleeptime_controls_repetition 0 cfg0 envC9).2 le_rfl (by decide) 0⟩

theorem confirmationPhase_trace (pe : PurchaseEnv) :
    (confirmationPhase pe).1 =
      [Event.log LogLevel.debug
        "Wait for confirmation that checkout is complete" [],
       Event.locate "purchase-confirmation"] := by
  cases hcf : pe.confirmation <;> simp [confirmationPhase, hcf]

theorem refundPhase_trace_cases (pe : PurchaseEnv) :
    (refundPhase pe).1 =
      [Event.log LogLevel.debug "accept the conditions of refund popup" [],
       Event.locate "btn-primary", Event.click "btn-primary[1]"] ∨
    (refundPhase pe).1 =
      [Event.log LogLevel.debug "accept the conditions of refund popup" [],
       Event.locate "btn-primary",
       Event.log LogLevel.debug "no refund conditions popup to accept" []] := by
  cases hr : pe.refundBtns with
  | none => simp [refundPhase, hr]
  | some n => by_cases h1 : 1 < n <;> simp [refundPhase, hr, h1]

/-- Everything after the agreement phase: no occurrence of the agreement
handler message, no click on the agreement control, and the primary
purchase-button wait is reached. -/
theorem agreement_rest_facts (pe : PurchaseEnv) :
    countMsg "no license agreement found"
      (M.bind (primaryPhase pe) (fun _ => M.bind (refundPhase pe)
        (fun _ => confirmationPhase pe))).1 = 0 ∧
    clickCount "agree"
      (M.bind (primaryPhase pe) (fun _ => M.bind (refundPhase pe)
        (fun _ => confirmationPhase pe))).1 = 0 ∧
    Event.locate "btn-primary" ∈
      (M.bind (primaryPhase pe) (fun _ => M.bind (refundPhase pe)
        (fun _ => confirmationPhase pe))).1 := by
  cases hp : pe.btnPrimary with
  | none =>
      simp [primaryPhase, hp, M.bind, countMsg, clickCount, countP]
  | some u =>
      cases u
      have hprim : (primaryPhase pe).2 = Status.ok () := primaryPhase_ok pe hp
      rw [bind_of_ok hprim, bind_of_ok (refundPhase_ok pe)]
      have hprimTr : (primaryPhase pe).1 =
          [Event.log LogLevel.debug
            "find and click on the last purchase button" [],
           Event.locate "btn-primary", Event.click "btn-primary"] := by
        simp [primaryPhase, hp]
      rcases refundPhase_trace_cases pe with hr | hr <;>
        simp [hprimTr, hr, confirmationPhase_trace, countMsg, clickCount,
          countP, List.filter_append]

/-- C10: in the agreement step of the purchase flow, a timeout at any of the
three sub-actions (agreement control, Accept button, re-located
call-to-action) is caught by the one shared handler: the debug
message appears exactly once, clicks already performed stay in the trace,
and the flow continues to the primary purchase-button wait. -/
theorem agreement_shared_timeout_handler (pe : PurchaseEnv) :
    (pe.agree = none →
      countMsg "no license agreement found" (purchase_steps pe).1 = 1 ∧
      clickCount "agree" (purchase_steps pe).1 = 0 ∧
      Event.locate "btn-primary" ∈ (purchase_steps pe).1) ∧
    (pe.agree = some () → pe.accept = none →
      Event.click "agree" ∈ (purchase_steps pe).1 ∧
      countMsg "no license agreement found" (purchase_steps pe).1 = 1 ∧
      Event.locate "btn-primary" ∈ (purchase_steps pe).1) ∧
    (pe.agree = some () → pe.accept = some () → pe.ctaAgain = none →
      Event.click "agree" ∈ (purchase_steps pe).1 ∧
      Event.click "accept-button" ∈ (purchase_steps pe).1 ∧
      countMsg "no license agreement found" (purchase_steps pe).1 = 1 ∧
      Event.locate "btn-primary" ∈ (purchase_steps pe).1) := by
  obtain ⟨hr1, hr2, hr3⟩ := agreement_rest_facts pe
  have hsplit : purchase_steps pe =
      ((agreementPhase pe).1 ++
        (M.bind (primaryPhase pe) (fun _ => M.bind (refundPhase pe)
          (fun _ => confirmationPhase pe))).1,
       (M.bind (primaryPhase pe) (fun _ => M.bind (refundPhase pe)
          (fun _ => confirmationPhase pe))).2) := by
    simp only [purchase_steps, bind_def]
    rw [bind_of_ok (agreementPhase_ok pe)]
  simp only [countMsg, countP] at hr1
  rw [List.length_eq_zero] at hr1
  simp only [clickCount, countP] at hr2
  rw [List.length_eq_zero] at hr2
  refine ⟨fun h1 => ?_, fun h1 h2 => ?_, fun h1 h2 h3 => ?_⟩
  · have hA : (agreementPhase pe).1 =
        [Event.log LogLevel.debug "find and accept license agreement" [],
         Event.locate "agree",
         Event.log LogLevel.debug "no license agreement found" []] := by
      simp [agreementPhase, h1]
    refine ⟨?_, ?_, ?_⟩
    · simp only [hsplit, countMsg, countP, List.filter_append,
        List.length_append, hA, hr1]
      decide
    · simp only [hsplit, clickCount, countP, List.filter_append,
        List.length_append, hA, hr2]
      decide
    · simp only [hsplit, hA, List.mem_append]
      exact Or.inr hr3
  · have hA : (agreementPhase pe).1 =
        [Event.log LogLevel.debug "find and accept license agreement" [],
         Event.locate "agree", Event.click "agree",
         Event.locate "accept-button",
         Event.log LogLevel.debug "no license agreement found" []] := by
      simp [agreementPhase, h1, h2]
    refine ⟨?_, ?_, ?_⟩
    · simp only [hsplit, hA, List.mem_append]
      exact Or.inl (by decide)
    · simp only [hsplit, countMsg, countP, List.filter_append,
        List.length_append, hA, hr1]
      decide
    · simp only [hsplit, hA, List.mem_append]
      exact Or.inr hr3
  · have hA : (agreementPhase pe).1 =
        [Event.log LogLevel.debug "find and accept license agreement" [],
         Event.locate "agree", Event.click "agree",
         Event.locate "accept-button", Event.click "accept-button",
         Event.log LogLevel.debug
           "find and clicking again the purchase button" [],
         Event.locate "purchase-cta-button",
         Event.log LogLevel.debug "no license agreement found" []] := by
      simp [agreementPhase, h1, h2, h3]
    refine ⟨?_, ?_, ?_, ?_⟩
    · simp only [hsplit, hA, List.mem_append]
      exact Or.inl (by decide)
    · simp only [hsplit, hA, List.mem_append]
      exact Or.inl (by decide)
    · simp only [hsplit, countMsg, countP, List.filter_append,
        List.length_append, hA, hr1]
      decide
    · simp only [hsplit, hA, List.mem_append]
      exact Or.inr hr3

/-- C10 witness: the theorem at an environment whose agreement control is
clicked but whose Accept button never appears. -/
theorem agreement_shared_handler_witness :
    Event.click "agree" ∈ (purchase_steps peC10).1 ∧
    countMsg "no license agreement found" (purchase_steps peC10).1 = 1 ∧
    Event.locate "btn-primary" ∈ (purchase_steps peC10).1 :=
  (agreement_shared_timeout_handler peC10).2.1 rfl rfl
